import Mathlib

/-!
# Verification of the treejure external scanner and reader grammar

Shallow embedding of the external scanner in `src/src/scanner.c`
(the final `tree_sitter_treejure_*` snapshot, lines 215-427) and of the
reader grammar in `src/unnamed/part_000` (the `treejure` grammar).

Modelling conventions:
* the cursor is the list of code points still ahead of the lexer
  (`List Char`); `lexer->lookahead` is the head, with the C sentinel `0`
  (`Char.ofNat 0`) at end of input, and `lexer->advance` is `List.tail`;
* a scan returns the produced token kind (or `none` for a `false` return)
  together with the remaining input, which determines the consumed span;
* character classes are expressed on `Char.toNat`, with the original
  character constants recorded in doc comments;
* `isdigit`/`isxdigit` are the C ASCII classifiers; `iswalnum` (used only
  in radix mode) is modelled as ASCII alphanumeric.
-/

/-- The token kinds of the grammar's `externals` array in
`src/unnamed/part_000` lines 17-37.  The scanner's own `enum TokenType`
(scanner.c lines 220-227) lists exactly the first sixteen; the last three
are declared by the grammar but have no scanner counterpart. -/
inductive TokenType where
  | NUMBER
  | SYMBOL
  | KEYWORD
  | QUOTE_MARKER
  | SYNTAX_QUOTE_MARKER
  | DEREF_MARKER
  | META_MARKER
  | UNQUOTE_MARKER
  | UNQUOTE_SPLICING_MARKER
  | STRING_EXTERNAL
  | ERRONEOUS_STRING
  | NIL_LITERAL
  | BOOL_TRUE
  | BOOL_FALSE
  | CHARACTER_EXTERNAL
  | ERRONEOUS_CHARACTER
  | ERRONEOUS_KEYWORD
  | ERRONEOUS_SYMBOL
  | ERRONEOUS_NUMBER
  deriving DecidableEq, Repr

open TokenType

/-- `lexer->lookahead`: the current code point, `0` at end of input. -/
def lookahead (input : List Char) : Char :=
  input.headD (Char.ofNat 0)

/-- `is_clojure_whitespace` (scanner.c lines 229-236): space, tab, CR, LF,
comma, FF, VT, NBSP (U+00A0), soft hyphen (U+00AD), U+2000-U+200A,
U+2028, U+2029, U+202F, U+205F, U+3000, U+1680, U+180E. -/
def is_clojure_whitespace (c : Char) : Bool :=
  let n := c.toNat
  n = 32 || n = 9 || n = 13 || n = 10 ||
  n = 44 || n = 12 || n = 11 ||
  n = 0xA0 || n = 0xAD ||
  (0x2000 ≤ n && n ≤ 0x200A) ||
  n = 0x2028 || n = 0x2029 ||
  n = 0x202F || n = 0x205F || n = 0x3000 || n = 0x1680 || n = 0x180E

/-- `is_macro` (scanner.c lines 238-243): the characters
double-quote, colon, semicolon, single-quote, at, caret, backtick, tilde,
both parens, both brackets, both curly braces, backslash, hash
(code points 34, 58, 59, 39, 64, 94, 96, 126, 40, 41, 91, 93, 123, 125,
92, 35). -/
def is_macro_char (c : Char) : Bool :=
  let n := c.toNat
  n = 34 || n = 58 || n = 59 || n = 39 || n = 64 ||
  n = 94 || n = 96 || n = 126 || n = 40 || n = 41 ||
  n = 91 || n = 93 || n = 123 || n = 125 || n = 92 ||
  n = 35

/-- `is_macro_terminating` (scanner.c lines 249-254): a macro character
other than hash (35), single-quote (39) and colon (58). -/
def is_macro_terminating (c : Char) : Bool :=
  if !is_macro_char c then false
  else decide (c.toNat ≠ 35 ∧ c.toNat ≠ 39 ∧ c.toNat ≠ 58)

/-- `is_number_end` (scanner.c lines 259-261): end of input, whitespace,
or any macro character. -/
def is_number_end (c : Char) : Bool :=
  c.toNat = 0 || is_clojure_whitespace c || is_macro_char c

/-- `is_token_end` (scanner.c lines 266-268): end of input, whitespace,
or a terminating macro character. -/
def is_token_end (c : Char) : Bool :=
  c.toNat = 0 || is_clojure_whitespace c || is_macro_terminating c

/-- C `isdigit` on a code point: an ASCII decimal digit. -/
def c_isdigit (c : Char) : Bool :=
  48 ≤ c.toNat && c.toNat ≤ 57

/-- C `isxdigit` on a code point: an ASCII hexadecimal digit. -/
def c_isxdigit (c : Char) : Bool :=
  c_isdigit c || (97 ≤ c.toNat && c.toNat ≤ 102) || (65 ≤ c.toNat && c.toNat ≤ 70)

/-- C `iswalnum`, modelled on the ASCII range (it is only consulted in
radix mode, scanner.c line 282). -/
def c_iswalnum (c : Char) : Bool :=
  c_isdigit c || (97 ≤ c.toNat && c.toNat ≤ 122) || (65 ≤ c.toNat && c.toNat ≤ 90)

/-- An ASCII octal digit (used by the character classifier,
scanner.c line 319). -/
def c_isoctal (c : Char) : Bool :=
  48 ≤ c.toNat && c.toNat ≤ 55

/-- The main loop of `finish_number` (scanner.c lines 277-287).
State: pending input, `has_digits`, `is_hex`, `is_radix`.  Returns the C
function's boolean together with the remaining input. -/
def finishNumberLoop : List Char → Bool → Bool → Bool → Bool × List Char
  | [], hd, _, _ => (hd, [])
  | c :: rest, hd, hex, radix =>
    if is_number_end c then (hd, c :: rest)
    else if c_isdigit c then finishNumberLoop rest true hex radix
    else if hex && c_isxdigit c then finishNumberLoop rest true hex radix
    else if (c.toNat = 114 || c.toNat = 82) && hd && !radix then
      -- the character is lowercase or uppercase letter r
      finishNumberLoop rest hd hex true
    else if radix && c_iswalnum c then finishNumberLoop rest true hex radix
    else if c.toNat = 46 || c.toNat = 47 || c.toNat = 101 || c.toNat = 69 ||
            c.toNat = 77 || c.toNat = 78 || c.toNat = 43 || c.toNat = 45 then
      -- the catch-all of line 283: full stop, slash, e, E, M, N, plus, minus
      finishNumberLoop rest hd hex radix
    else (false, c :: rest)

/-- `finish_number` (scanner.c lines 271-288): optional leading `0x`/`0X`
prefix handling, then the main loop. -/
def finish_number (input : List Char) (has_digits : Bool) : Bool × List Char :=
  if !has_digits && lookahead input = '0' then
    let rest := input.tail
    if lookahead rest = 'x' || lookahead rest = 'X' then
      finishNumberLoop rest.tail true true false
    else
      finishNumberLoop rest true false false
  else
    finishNumberLoop input has_digits false false

/-- The loop of `scan_identifier` (scanner.c lines 326-329): consume while
the current character is not a token end, counting consumed characters. -/
def scanIdentifierLoop : List Char → Nat → Nat × List Char
  | [], n => (n, [])
  | c :: rest, n =>
    if is_token_end c then (n, c :: rest)
    else scanIdentifierLoop rest (n + 1)

/-- `scan_identifier` (scanner.c lines 325-335): succeeds, producing
`result_type`, iff the total character count is positive. -/
def scan_identifier (input : List Char) (char_count : Nat) (result_type : TokenType) :
    Option TokenType × List Char :=
  let r := scanIdentifierLoop input char_count
  (if r.1 > 0 then some result_type else none, r.2)

/-- The loop of `scan_string_type` (scanner.c lines 339-345), after the
opening quote has been consumed.  The C loop runs while `lookahead != 0`,
so both end of input and an embedded NUL terminate it erroneously. -/
def scanStringLoop : List Char → Bool → TokenType × List Char
  | [], _ => (ERRONEOUS_STRING, [])
  | c :: rest, escaped =>
    if c.toNat = 0 then (ERRONEOUS_STRING, c :: rest)
    else if escaped then scanStringLoop rest false
    else if c = '\\' then scanStringLoop rest true
    else if c = '"' then (STRING_EXTERNAL, rest)
    else scanStringLoop rest false

/-- `scan_string_type` (scanner.c lines 337-347): consume the opening
quote, then run the loop in unescaped mode. -/
def scan_string_type (input : List Char) : TokenType × List Char :=
  scanStringLoop input.tail false

/-- The C cast `(char)lexer->lookahead` (scanner.c lines 295 and 305):
the code point truncated to its low byte before being stored in the
31-byte classification buffer. -/
def charByte (c : Char) : Char :=
  Char.ofNat (c.toNat % 256)

/-- The greedy loop of `scan_character_type` (scanner.c line 304):
consume while the current character is not a token end and fewer than 31
bytes are buffered, storing the low byte of each code point.  The
accumulator length plays the role of the C index `i`. -/
def scanCharLoop : List Char → List Char → List Char × List Char
  | [], buf => (buf, [])
  | c :: rest, buf =>
    if is_token_end c then (buf, c :: rest)
    else if 31 ≤ buf.length then (buf, c :: rest)
    else scanCharLoop rest (buf ++ [charByte c])

/-- C `strcmp(buffer, name) == 0` where `buffer` holds the stored bytes
followed by a NUL terminator: equality of the byte prefix up to the first
embedded NUL with the (NUL-free) name. -/
def strcmpEq (buf : List Char) (name : List Char) : Bool :=
  buf.takeWhile (fun c => c.toNat ≠ 0) == name

/-- The classification of the buffered character-literal name
(scanner.c lines 310-322): one of the six exact names, `u` plus exactly
four hex digits, or `o` plus one to three octal digits. -/
def classify_character (buf : List Char) : TokenType :=
  if strcmpEq buf "newline".toList || strcmpEq buf "space".toList ||
     strcmpEq buf "tab".toList || strcmpEq buf "formfeed".toList ||
     strcmpEq buf "backspace".toList || strcmpEq buf "return".toList then
    CHARACTER_EXTERNAL
  else if buf.length = 5 && buf.headD (Char.ofNat 0) = 'u' then
    if buf.tail.all c_isxdigit then CHARACTER_EXTERNAL else ERRONEOUS_CHARACTER
  else if buf.headD (Char.ofNat 0) = 'o' && decide (1 < buf.length) &&
          decide (buf.length < 5) then
    if buf.tail.all c_isoctal then CHARACTER_EXTERNAL else ERRONEOUS_CHARACTER
  else ERRONEOUS_CHARACTER

/-- `scan_character_type` (scanner.c lines 290-323): consume the
backslash; end of input gives `ERRONEOUS_CHARACTER`; the next code point
is consumed unconditionally; a token end directly after it gives a
one-code-point `CHARACTER_EXTERNAL`; otherwise the greedy capped run is
consumed and classified. -/
def scan_character_type (input : List Char) : TokenType × List Char :=
  match input.tail with
  | [] => (ERRONEOUS_CHARACTER, [])
  | c :: rest1 =>
    if c.toNat = 0 then (ERRONEOUS_CHARACTER, c :: rest1)
    else if is_token_end (lookahead rest1) then (CHARACTER_EXTERNAL, rest1)
    else
      let r := scanCharLoop rest1 [charByte c]
      (classify_character r.1, r.2)

/-- `scan_exact_word` (scanner.c lines 349-359): match the fixed spelling
code point by code point (a mismatch reports failure with the matched
prefix already consumed), then require a token end. -/
def scan_exact_word (input : List Char) (word : List Char) (result_type : TokenType) :
    Option TokenType × List Char :=
  match word, input with
  | [], input => if is_token_end (lookahead input) then (some result_type, input) else (none, input)
  | _ :: _, [] => (none, [])
  | w :: ws, c :: rest => if c = w then scan_exact_word rest ws result_type else (none, c :: rest)

/-- Dispatch section 7, "Symbols (Catch-all)" (scanner.c lines 417-424):
the number attempt for a leading digit, falling through to the symbol
catch-all with the cursor wherever the failed number attempt left it. -/
def scan_number_symbol (valid : TokenType → Bool) (first : Char) (input : List Char) :
    Option TokenType × List Char :=
  match (if c_isdigit first && valid NUMBER then
           ((if (finish_number input false).1 then some NUMBER else none),
            (finish_number input false).2)
         else (none, input)) with
  | (some t, rest) => (some t, rest)
  | (none, input1) =>
    if valid SYMBOL && !is_macro_char first && !c_isdigit first then
      scan_identifier input1 0 SYMBOL
    else (none, input1)

/-- Dispatch sections 5 and 6, "Keywords" and "Sign / Numbers"
(scanner.c lines 402-416), then the number/symbol tail. -/
def scan_keyword_sign (valid : TokenType → Bool) (first : Char) (input : List Char) :
    Option TokenType × List Char :=
  if first.toNat = 58 && valid KEYWORD then
    -- a leading colon: consume it, optionally a second one, scan the body
    let rest := input.tail
    if (lookahead rest).toNat = 58 then scan_identifier rest.tail 2 KEYWORD
    else scan_identifier rest 1 KEYWORD
  else if first.toNat = 43 || first.toNat = 45 then
    -- a leading plus or minus sign
    let rest := input.tail
    if c_isdigit (lookahead rest) && valid NUMBER then
      let fnr := finish_number rest true
      if fnr.1 then (some NUMBER, fnr.2)
      else if valid SYMBOL then scan_identifier fnr.2 1 SYMBOL
      else (none, fnr.2)
    else if valid SYMBOL then scan_identifier rest 1 SYMBOL
    else (none, rest)
  else scan_number_symbol valid first input

/-- Dispatch section 4, "Literals" (scanner.c lines 397-399): the three
exact-word attempts.  A failed attempt leaves its consumed prefix behind
and control falls through with the advanced cursor. -/
def scan_literal_words (valid : TokenType → Bool) (first : Char) (input : List Char) :
    Option TokenType × List Char :=
  match (if first.toNat = 110 && valid NIL_LITERAL then
           scan_exact_word input ['n', 'i', 'l'] NIL_LITERAL
         else (none, input)) with
  | (some t, rest) => (some t, rest)
  | (none, input1) =>
    match (if first.toNat = 116 && valid BOOL_TRUE then
             scan_exact_word input1 ['t', 'r', 'u', 'e'] BOOL_TRUE
           else (none, input1)) with
    | (some t, rest) => (some t, rest)
    | (none, input2) =>
      match (if first.toNat = 102 && valid BOOL_FALSE then
               scan_exact_word input2 ['f', 'a', 'l', 's', 'e'] BOOL_FALSE
             else (none, input2)) with
      | (some t, rest) => (some t, rest)
      | (none, input3) => scan_keyword_sign valid first input3

/-- `tree_sitter_treejure_external_scanner_scan` (scanner.c lines
366-427): skip whitespace as insignificant, fail at end of input, then
dispatch on the first significant code point in the fixed priority
order.  The `payload` parameter mirrors the C `void *payload`, which the
function never reads. -/
def tree_sitter_treejure_external_scanner_scan (payload : Unit)
    (valid : TokenType → Bool) (input : List Char) : Option TokenType × List Char :=
  let _ := payload
  let input := input.dropWhile is_clojure_whitespace
  if (lookahead input).toNat = 0 then (none, input)
  else
    let first := lookahead input
    if first.toNat = 34 && (valid STRING_EXTERNAL || valid ERRONEOUS_STRING) then
      -- a double quote: the string sub-scanner always yields a token
      let r := scan_string_type input
      (some r.1, r.2)
    else if first.toNat = 92 && (valid CHARACTER_EXTERNAL || valid ERRONEOUS_CHARACTER) then
      -- a backslash: the character sub-scanner always yields a token
      let r := scan_character_type input
      (some r.1, r.2)
    else if first.toNat = 126 then
      -- a tilde, consumed before the candidate set is consulted
      let rest := input.tail
      if (lookahead rest).toNat = 64 && valid UNQUOTE_SPLICING_MARKER then
        (some UNQUOTE_SPLICING_MARKER, rest.tail)
      else if valid UNQUOTE_MARKER then (some UNQUOTE_MARKER, rest)
      else (none, rest)
    else if first.toNat = 39 && valid QUOTE_MARKER then (some QUOTE_MARKER, input.tail)
    else if first.toNat = 96 && valid SYNTAX_QUOTE_MARKER then
      (some SYNTAX_QUOTE_MARKER, input.tail)
    else if first.toNat = 64 && valid DEREF_MARKER then (some DEREF_MARKER, input.tail)
    else if first.toNat = 94 && valid META_MARKER then (some META_MARKER, input.tail)
    else scan_literal_words valid first input

/-- `tree_sitter_treejure_external_scanner_create` (scanner.c line 361):
returns the NULL payload. -/
def tree_sitter_treejure_external_scanner_create : Unit := ()

/-- `tree_sitter_treejure_external_scanner_serialize` (scanner.c line
363): writes nothing into the buffer and reports zero length. -/
def tree_sitter_treejure_external_scanner_serialize (payload : Unit) : List Char :=
  let _ := payload
  []

/-- `tree_sitter_treejure_external_scanner_deserialize` (scanner.c line
364): ignores the buffer and restores the stateless payload. -/
def tree_sitter_treejure_external_scanner_deserialize (payload : Unit)
    (buffer : List Char) : Unit :=
  let _ := payload
  let _ := buffer
  ()

/-- The candidate set with every token kind requested. -/
def allValid : TokenType → Bool := fun _ => true

/-- The empty candidate set. -/
def noValid : TokenType → Bool := fun _ => false

/-!
## The reader grammar of `src/unnamed/part_000`

The grammar layer consumes the token stream produced by the scanner and
the literal string tokens declared inline in the grammar.  The token
alphabet below abstracts one parse token per grammar terminal; the atoms
carry a payload so distinct source literals stay distinct.  The parser is
a fuel-indexed recursive descent following the productions; the
`prec.right(10)` annotations make the `repeat($.discard)` sequences and
the trailing targets bind greedily, which the descent realises by always
consuming the longest available discard chain and target.
-/

/-- The terminals of the reader grammar: the anonymous literal tokens of
`part_000` and the externals produced by the scanner, with atomic
payloads for literals and identifiers. -/
inductive ReaderTok where
  | discardTok                 -- the literal token of the discard rule
  | quoteTok                   -- the quote marker external
  | sqTok                      -- the syntax-quote marker external
  | derefTok                   -- the deref marker external
  | metaTok                    -- the meta marker external
  | unquoteTok                 -- the unquote marker external
  | unquoteSplicingTok         -- the unquote-splicing marker external
  | varQuoteTok                -- the literal hash-quote token of var_quote
  | hashTok                    -- the literal hash of tagged_literal
  | fnOpenTok                  -- the literal token opening fn_literal
  | readerCondTok              -- the reader-conditional marker
  | readerCondSpliceTok        -- the splicing reader-conditional marker
  | lparenTok | rparenTok      -- list delimiters
  | lbracketTok | rbracketTok  -- vector delimiters
  | lbraceTok | rbraceTok      -- map delimiters
  | setOpenTok                 -- the literal token opening set_literal
  | numTok (n : Nat)           -- a number external
  | strTok (s : String)        -- a string external
  | regexTok (s : String)      -- a regex
  | charTok (c : Char)         -- a character external
  | nilTok | trueTok | falseTok
  | symTok (s : String)        -- a symbol external
  | kwTok (s : String)         -- a keyword external
  | errCharTok | errNumTok     -- the erroneous character and number externals
  deriving DecidableEq, Repr

/-- The `Form` tree built by the grammar productions of `part_000`.
Each reader-macro node and the metadata node carry the list of `Discard`
wrappers absorbed by their `repeat($.discard)` sequence before the
`target` field. -/
inductive Form where
  | number (n : Nat)
  | str (s : String)
  | regex (s : String)
  | character (c : Char)
  | nil
  | boolean (b : Bool)
  | symbol (s : String)
  | keyword (s : String)
  | listLit (children : List Form)
  | vectorLit (children : List Form)
  | setLit (children : List Form)
  | mapLit (pairs : List (Form × Form))
  | quote (discards : List Form) (target : Form)
  | syntaxQuote (discards : List Form) (target : Form)
  | varQuote (discards : List Form) (target : Form)
  | deref (discards : List Form) (target : Form)
  | unquote (discards : List Form) (target : Form)
  | unquoteSplicing (discards : List Form) (target : Form)
  | fnLit (children : List Form)
  | readerCond (splicing : Bool) (body : Form)
  | taggedLiteral (tag : Form) (discards : List Form) (target : Form)
  | withMetadata (meta : Form) (discards : List Form) (target : Option Form)
  | discard (discards : List Form) (target : Form)
  | invalidCharacter
  | invalidNumber
  deriving Repr

/-- The `metadata` rule: the meta marker followed by a keyword, symbol or
map value.  Returns the value form and the remaining tokens.  The map
case is handled by the caller-supplied map parser result. -/
def isMetaValueTok : ReaderTok → Bool
  | ReaderTok.kwTok _ => true
  | ReaderTok.symTok _ => true
  | ReaderTok.lbraceTok => true
  | _ => false

mutual

/-- `repeat($.discard)`: greedily parse a (possibly empty) chain of
discard forms. -/
def parseDiscards (fuel : Nat) (toks : List ReaderTok) : List Form × List ReaderTok :=
  match fuel with
  | 0 => ([], toks)
  | fuel + 1 =>
    match toks with
    | ReaderTok.discardTok :: _ =>
      match parseDiscard fuel toks with
      | some (d, rest) =>
        let r := parseDiscards fuel rest
        (d :: r.1, r.2)
      | none => ([], toks)
    | _ => ([], toks)

/-- The `discard` rule (`part_000` lines 181-185): the discard token,
zero or more nested discards, then exactly one mandatory visible form. -/
def parseDiscard (fuel : Nat) (toks : List ReaderTok) : Option (Form × List ReaderTok) :=
  match fuel with
  | 0 => none
  | fuel + 1 =>
    match toks with
    | ReaderTok.discardTok :: rest =>
      let ds := parseDiscards fuel rest
      match parseVisibleForm fuel ds.2 with
      | some (t, rest2) => some (Form.discard ds.1 t, rest2)
      | none => none
    | _ => none

/-- A macro wrapper body: `repeat($.discard)` then a mandatory
`_visible_form` target, shared by quote, syntax-quote, var-quote, deref,
unquote and unquote-splicing. -/
def parseMacroTail (fuel : Nat) (toks : List ReaderTok)
    (mk : List Form → Form → Form) : Option (Form × List ReaderTok) :=
  match fuel with
  | 0 => none
  | fuel + 1 =>
    let ds := parseDiscards fuel toks
    match parseVisibleForm fuel ds.2 with
    | some (t, rest) => some (mk ds.1 t, rest)
    | none => none

/-- `repeat($._form)` inside a collection, up to the closing token. -/
def parseFormsUntil (fuel : Nat) (close : ReaderTok) (toks : List ReaderTok) :
    Option (List Form × List ReaderTok) :=
  match fuel with
  | 0 => none
  | fuel + 1 =>
    match toks with
    | [] => none
    | t :: rest =>
      if t = close then some ([], rest)
      else
        match parseForm fuel (t :: rest) with
        | some (f, rest1) =>
          match parseFormsUntil fuel close rest1 with
          | some (fs, rest2) => some (f :: fs, rest2)
          | none => none
        | none => none

/-- `repeat($.pair)` inside a map literal: key and value forms, in
pairs, up to the closing brace. -/
def parsePairsUntil (fuel : Nat) (toks : List ReaderTok) :
    Option (List (Form × Form) × List ReaderTok) :=
  match fuel with
  | 0 => none
  | fuel + 1 =>
    match toks with
    | [] => none
    | t :: rest =>
      if t = ReaderTok.rbraceTok then some ([], rest)
      else
        match parseForm fuel (t :: rest) with
        | some (k, rest1) =>
          match parseForm fuel rest1 with
          | some (v, rest2) =>
            match parsePairsUntil fuel rest2 with
            | some (ps, rest3) => some ((k, v) :: ps, rest3)
            | none => none
          | none => none
        | none => none

/-- `_visible_form` (`part_000` lines 50-53): metadata wrapper or a
base form (literal, collection, identifier, reader macro).  Dispatch is
on the leading token, which identifies the production uniquely. -/
def parseVisibleForm (fuel : Nat) (toks : List ReaderTok) : Option (Form × List ReaderTok) :=
  match fuel with
  | 0 => none
  | fuel + 1 =>
    match toks with
    | ReaderTok.metaTok :: rest =>
      -- with_metadata (lines 56-69): metadata value, discards, optional target
      match rest with
      | ReaderTok.kwTok s :: rest1 =>
        some (parseMetaTail fuel (Form.keyword s) rest1)
      | ReaderTok.symTok s :: rest1 =>
        some (parseMetaTail fuel (Form.symbol s) rest1)
      | ReaderTok.lbraceTok :: rest1 =>
        match parsePairsUntil fuel rest1 with
        | some (ps, rest2) => some (parseMetaTail fuel (Form.mapLit ps) rest2)
        | none => none
      | _ => none
    | ReaderTok.numTok n :: rest => some (Form.number n, rest)
    | ReaderTok.strTok s :: rest => some (Form.str s, rest)
    | ReaderTok.regexTok s :: rest => some (Form.regex s, rest)
    | ReaderTok.charTok c :: rest => some (Form.character c, rest)
    | ReaderTok.nilTok :: rest => some (Form.nil, rest)
    | ReaderTok.trueTok :: rest => some (Form.boolean true, rest)
    | ReaderTok.falseTok :: rest => some (Form.boolean false, rest)
    | ReaderTok.symTok s :: rest => some (Form.symbol s, rest)
    | ReaderTok.kwTok s :: rest => some (Form.keyword s, rest)
    | ReaderTok.lparenTok :: rest =>
      match parseFormsUntil fuel ReaderTok.rparenTok rest with
      | some (fs, rest1) => some (Form.listLit fs, rest1)
      | none => none
    | ReaderTok.lbracketTok :: rest =>
      match parseFormsUntil fuel ReaderTok.rbracketTok rest with
      | some (fs, rest1) => some (Form.vectorLit fs, rest1)
      | none => none
    | ReaderTok.setOpenTok :: rest =>
      match parseFormsUntil fuel ReaderTok.rbraceTok rest with
      | some (fs, rest1) => some (Form.setLit fs, rest1)
      | none => none
    | ReaderTok.lbraceTok :: rest =>
      match parsePairsUntil fuel rest with
      | some (ps, rest1) => some (Form.mapLit ps, rest1)
      | none => none
    | ReaderTok.quoteTok :: rest => parseMacroTail fuel rest Form.quote
    | ReaderTok.sqTok :: rest => parseMacroTail fuel rest Form.syntaxQuote
    | ReaderTok.varQuoteTok :: rest => parseMacroTail fuel rest Form.varQuote
    | ReaderTok.derefTok :: rest => parseMacroTail fuel rest Form.deref
    | ReaderTok.unquoteTok :: rest => parseMacroTail fuel rest Form.unquote
    | ReaderTok.unquoteSplicingTok :: rest => parseMacroTail fuel rest Form.unquoteSplicing
    | ReaderTok.fnOpenTok :: rest =>
      match parseFormsUntil fuel ReaderTok.rparenTok rest with
      | some (fs, rest1) => some (Form.fnLit fs, rest1)
      | none => none
    | ReaderTok.readerCondTok :: ReaderTok.lparenTok :: rest =>
      match parseFormsUntil fuel ReaderTok.rparenTok rest with
      | some (fs, rest1) => some (Form.readerCond false (Form.listLit fs), rest1)
      | none => none
    | ReaderTok.readerCondSpliceTok :: ReaderTok.lparenTok :: rest =>
      match parseFormsUntil fuel ReaderTok.rparenTok rest with
      | some (fs, rest1) => some (Form.readerCond true (Form.listLit fs), rest1)
      | none => none
    | ReaderTok.hashTok :: ReaderTok.symTok s :: rest =>
      -- tagged_literal (lines 155-160): tag symbol, discards, target
      match parseMacroTail fuel rest (Form.taggedLiteral (Form.symbol s)) with
      | some r => some r
      | none => none
    | _ => none

/-- The tail of `with_metadata` (lines 56-60): absorb discards, then the
optional target. -/
def parseMetaTail (fuel : Nat) (value : Form) (toks : List ReaderTok) :
    Form × List ReaderTok :=
  match fuel with
  | 0 => (Form.withMetadata value [] none, toks)
  | fuel + 1 =>
    let ds := parseDiscards fuel toks
    match parseVisibleForm fuel ds.2 with
    | some (t, rest) => (Form.withMetadata value ds.1 (some t), rest)
    | none => (Form.withMetadata value ds.1 none, ds.2)

/-- `_form` (lines 42-47): a visible form, a discard, or one of the
invalid atoms. -/
def parseForm (fuel : Nat) (toks : List ReaderTok) : Option (Form × List ReaderTok) :=
  match fuel with
  | 0 => none
  | fuel + 1 =>
    match toks with
    | ReaderTok.discardTok :: _ => parseDiscard fuel toks
    | ReaderTok.errCharTok :: rest => some (Form.invalidCharacter, rest)
    | ReaderTok.errNumTok :: rest => some (Form.invalidNumber, rest)
    | _ => parseVisibleForm fuel toks

end

/-- `source` (line 40): `repeat($._form)` to the end of the stream. -/
def parseSource (fuel : Nat) (toks : List ReaderTok) : Option (List Form) :=
  match fuel with
  | 0 => none
  | fuel + 1 =>
    match toks with
    | [] => some []
    | _ =>
      match parseForm fuel toks with
      | some (f, rest) =>
        match parseSource fuel rest with
        | some fs => some (f :: fs)
        | none => none
      | none => none

/-- Whether a top-level form is a discard node (a discarded form rather
than a live one). -/
def isDiscardForm : Form → Bool
  | Form.discard _ _ => true
  | _ => false

/-- The live top-level forms: those that are not discard nodes. -/
def liveForms (fs : List Form) : List Form :=
  fs.filter (fun f => !isDiscardForm f)

/-- The characters of the `finish_number` catch-all (scanner.c line 283):
full stop, slash, e, E, M, N, plus, minus. -/
def numMarkerChar (c : Char) : Bool :=
  c.toNat = 46 || c.toNat = 47 || c.toNat = 101 || c.toNat = 69 ||
  c.toNat = 77 || c.toNat = 78 || c.toNat = 43 || c.toNat = 45

/-- Spec-side classifier (claim C6, amended): the consumed run, viewed
through its low bytes, is one of the six names (compared C-string-wise,
i.e. up to the first NUL byte), `u` plus exactly four hex digits, or `o`
plus one to three octal digits. -/
def charRunOK (buf : List Char) : Bool :=
  strcmpEq buf "newline".toList || strcmpEq buf "space".toList ||
  strcmpEq buf "tab".toList || strcmpEq buf "formfeed".toList ||
  strcmpEq buf "backspace".toList || strcmpEq buf "return".toList ||
  (buf.length = 5 && buf.headD (Char.ofNat 0) = 'u' && buf.tail.all c_isxdigit) ||
  (buf.headD (Char.ofNat 0) = 'o' && decide (1 < buf.length) && decide (buf.length < 5) &&
    buf.tail.all c_isoctal)

/-- The character sub-scanner as claim C6 (amended) describes it: end of
input directly after the backslash is erroneous; the next code point is
consumed unconditionally and is the whole literal when a token boundary
follows; otherwise the run is extended greedily up to the token boundary,
capped at 31 code points in total, and classified byte-wise by
`charRunOK`. -/
def character_scan_spec (rest : List Char) : TokenType × List Char :=
  match rest with
  | [] => (ERRONEOUS_CHARACTER, [])
  | c :: rest1 =>
    if c.toNat = 0 then (ERRONEOUS_CHARACTER, c :: rest1)
    else if is_token_end (lookahead rest1) then (CHARACTER_EXTERNAL, rest1)
    else
      ((if charRunOK ((c :: (rest1.takeWhile (fun x => !is_token_end x)).take 30).map charByte)
          then CHARACTER_EXTERNAL else ERRONEOUS_CHARACTER),
       rest1.drop ((rest1.takeWhile (fun x => !is_token_end x)).take 30).length)

/-!
## Helper lemmas about the sub-scanners
-/

theorem scanIdentifierLoop_le (input : List Char) (n : Nat) :
    n ≤ (scanIdentifierLoop input n).1 := by
  induction input generalizing n with
  | nil => simp [scanIdentifierLoop]
  | cons c rest ih =>
    simp only [scanIdentifierLoop]
    split
    · simp
    · exact le_trans (Nat.le_succ n) (ih (n + 1))

theorem scan_identifier_seeded_pos (input : List Char) (k : Nat) (rt : TokenType)
    (hk : 0 < k) : (scan_identifier input k rt).1 = some rt := by
  have h := scanIdentifierLoop_le input k
  simp only [scan_identifier]
  rw [if_pos (lt_of_lt_of_le hk h)]

theorem scan_identifier_zero_isSome (input : List Char) (rt : TokenType) :
    (scan_identifier input 0 rt).1.isSome = !is_token_end (lookahead input) := by
  cases input with
  | nil => simp [scan_identifier, scanIdentifierLoop, lookahead, is_token_end, Char.ofNat]
  | cons c rest =>
    by_cases h : is_token_end c
    · simp [scan_identifier, scanIdentifierLoop, lookahead, h]
    · have h1 := scanIdentifierLoop_le rest 1
      have h2 : 0 < (scanIdentifierLoop rest 1).1 := lt_of_lt_of_le Nat.one_pos h1
      simp [scan_identifier, scanIdentifierLoop, lookahead, h, h2]

theorem scan_identifier_kind (input : List Char) (k : Nat) (rt : TokenType) :
    (scan_identifier input k rt).1 = none ∨ (scan_identifier input k rt).1 = some rt := by
  simp only [scan_identifier]
  split
  · right; rfl
  · left; rfl

theorem scanStringLoop_kind (input : List Char) (esc : Bool) :
    (scanStringLoop input esc).1 = STRING_EXTERNAL ∨
    (scanStringLoop input esc).1 = ERRONEOUS_STRING := by
  induction input generalizing esc with
  | nil => simp [scanStringLoop]
  | cons c rest ih =>
    simp only [scanStringLoop]
    split_ifs <;> first | simp | exact ih _

theorem classify_character_kind (buf : List Char) :
    classify_character buf = CHARACTER_EXTERNAL ∨
    classify_character buf = ERRONEOUS_CHARACTER := by
  unfold classify_character
  split_ifs <;> simp

theorem scan_character_type_kind (input : List Char) :
    (scan_character_type input).1 = CHARACTER_EXTERNAL ∨
    (scan_character_type input).1 = ERRONEOUS_CHARACTER := by
  unfold scan_character_type
  split
  · simp
  · split_ifs <;> simp [classify_character_kind]

theorem scan_exact_word_kind (word input : List Char) (rt : TokenType) :
    (scan_exact_word input word rt).1 = none ∨
    (scan_exact_word input word rt).1 = some rt := by
  induction word generalizing input with
  | nil => simp only [scan_exact_word]; split <;> simp
  | cons w ws ih =>
    cases input with
    | nil => simp [scan_exact_word]
    | cons c rest =>
      simp only [scan_exact_word]
      split
      · exact ih rest
      · simp

theorem scan_identifier_fst (input : List Char) (k : Nat) (rt : TokenType) :
    (scan_identifier input k rt).1 =
      if 0 < (scanIdentifierLoop input k).1 then some rt else none := rfl

theorem scan_number_symbol_kind (valid : TokenType → Bool) (first : Char) (input : List Char) :
    (scan_number_symbol valid first input).1 = none ∨
    (scan_number_symbol valid first input).1 = some NUMBER ∨
    (scan_number_symbol valid first input).1 = some SYMBOL := by
  unfold scan_number_symbol
  split
  next t rest heq =>
    split_ifs at heq <;> simp_all
  next input1 heq =>
    split_ifs with h
    · rcases scan_identifier_kind input1 0 SYMBOL with hk | hk <;> simp [hk]
    · simp

theorem scan_keyword_sign_kind (valid : TokenType → Bool) (first : Char) (input : List Char) :
    (scan_keyword_sign valid first input).1 = none ∨
    (scan_keyword_sign valid first input).1 = some KEYWORD ∨
    (scan_keyword_sign valid first input).1 = some NUMBER ∨
    (scan_keyword_sign valid first input).1 = some SYMBOL := by
  unfold scan_keyword_sign
  by_cases h1 : (decide (first.toNat = 58) && valid KEYWORD) = true
  · rw [if_pos h1]
    by_cases h2 : (lookahead input.tail).toNat = 58
    · rw [if_pos h2]
      rcases scan_identifier_kind input.tail.tail 2 KEYWORD with h | h <;> simp [h]
    · rw [if_neg h2]
      rcases scan_identifier_kind input.tail 1 KEYWORD with h | h <;> simp [h]
  · rw [if_neg h1]
    by_cases h3 : (decide (first.toNat = 43) || decide (first.toNat = 45)) = true
    · rw [if_pos h3]
      by_cases h4 : (c_isdigit (lookahead input.tail) && valid NUMBER) = true
      · rw [if_pos h4]
        by_cases h5 : (finish_number input.tail true).1 = true
        · rw [if_pos h5]; simp
        · rw [if_neg h5]
          by_cases h6 : valid SYMBOL = true
          · rw [if_pos h6]
            rcases scan_identifier_kind (finish_number input.tail true).2 1 SYMBOL with h | h <;>
              simp [h]
          · rw [if_neg h6]; simp
      · rw [if_neg h4]
        by_cases h6 : valid SYMBOL = true
        · rw [if_pos h6]
          rcases scan_identifier_kind input.tail 1 SYMBOL with h | h <;> simp [h]
        · rw [if_neg h6]; simp
    · rw [if_neg h3]
      rcases scan_number_symbol_kind valid first input with h | h | h <;> simp [h]

theorem scan_literal_words_kind (valid : TokenType → Bool) (first : Char) (input : List Char) :
    (scan_literal_words valid first input).1 = none ∨
    (scan_literal_words valid first input).1 = some NIL_LITERAL ∨
    (scan_literal_words valid first input).1 = some BOOL_TRUE ∨
    (scan_literal_words valid first input).1 = some BOOL_FALSE ∨
    (scan_literal_words valid first input).1 = some KEYWORD ∨
    (scan_literal_words valid first input).1 = some NUMBER ∨
    (scan_literal_words valid first input).1 = some SYMBOL := by
  unfold scan_literal_words
  split
  next t rest heq =>
    split_ifs at heq with h
    · rcases scan_exact_word_kind ['n', 'i', 'l'] input NIL_LITERAL with hk | hk <;>
        rw [heq] at hk <;> simp_all
    · simp_all
  next input1 heq1 =>
    split
    next t rest heq =>
      split_ifs at heq with h
      · rcases scan_exact_word_kind ['t', 'r', 'u', 'e'] input1 BOOL_TRUE with hk | hk <;>
          rw [heq] at hk <;> simp_all
      · simp_all
    next input2 heq2 =>
      split
      next t rest heq =>
        split_ifs at heq with h
        · rcases scan_exact_word_kind ['f', 'a', 'l', 's', 'e'] input2 BOOL_FALSE with hk | hk <;>
            rw [heq] at hk <;> simp_all
        · simp_all
      next input3 heq3 =>
        rcases scan_keyword_sign_kind valid first input3 with h | h | h | h <;> simp [h]

theorem scan_identifier_zero_failure (input : List Char) (rt : TokenType)
    (h : (scan_identifier input 0 rt).1 = none) :
    (scan_identifier input 0 rt).2 = input := by
  cases input with
  | nil => simp [scan_identifier, scanIdentifierLoop]
  | cons c rest =>
    by_cases hc : is_token_end c
    · simp [scan_identifier, scanIdentifierLoop, hc]
    · exfalso
      have h1 := scanIdentifierLoop_le rest 1
      have h2 : 0 < (scanIdentifierLoop rest 1).1 := lt_of_lt_of_le Nat.one_pos h1
      simp [scan_identifier, scanIdentifierLoop, hc, h2] at h

theorem scan_number_symbol_failure (valid : TokenType → Bool) (first : Char) (input : List Char) :
    (scan_number_symbol valid first input).1 = none →
    ((scan_number_symbol valid first input).2 = input ∨ c_isdigit first = true) := by
  unfold scan_number_symbol
  split
  next t rest heq => simp
  next input1 heq =>
    by_cases hg : (c_isdigit first && valid NUMBER) = true
    · intro _
      right
      have hg' := hg
      rw [Bool.and_eq_true] at hg'
      exact hg'.1
    · rw [if_neg hg] at heq
      have hinp : input1 = input := (congrArg Prod.snd heq).symm
      subst hinp
      split_ifs with hsym
      · intro hnone
        left
        exact scan_identifier_zero_failure input1 SYMBOL hnone
      · intro _
        left
        rfl

theorem scan_keyword_sign_failure (valid : TokenType → Bool) (first : Char) (input : List Char) :
    (scan_keyword_sign valid first input).1 = none →
    ((scan_keyword_sign valid first input).2 = input ∨
     first.toNat = 43 ∨ first.toNat = 45 ∨ c_isdigit first = true) := by
  unfold scan_keyword_sign
  by_cases h1 : (decide (first.toNat = 58) && valid KEYWORD) = true
  · rw [if_pos h1]
    by_cases h2 : (lookahead input.tail).toNat = 58
    · rw [if_pos h2]
      intro h
      rw [scan_identifier_seeded_pos input.tail.tail 2 KEYWORD (by omega)] at h
      simp at h
    · rw [if_neg h2]
      intro h
      rw [scan_identifier_seeded_pos input.tail 1 KEYWORD (by omega)] at h
      simp at h
  · rw [if_neg h1]
    by_cases h3 : (decide (first.toNat = 43) || decide (first.toNat = 45)) = true
    · rw [if_pos h3]
      intro _
      have h3' := h3
      rw [Bool.or_eq_true] at h3'
      rcases h3' with h | h
      · right; left; exact of_decide_eq_true h
      · right; right; left; exact of_decide_eq_true h
    · rw [if_neg h3]
      intro h
      rcases scan_number_symbol_failure valid first input h with h' | h'
      · left; exact h'
      · right; right; right; exact h'

theorem scan_literal_words_failure (valid : TokenType → Bool) (first : Char) (input : List Char) :
    (scan_literal_words valid first input).1 = none →
    ((scan_literal_words valid first input).2 = input ∨
     first.toNat = 110 ∨ first.toNat = 116 ∨ first.toNat = 102 ∨
     first.toNat = 43 ∨ first.toNat = 45 ∨ c_isdigit first = true) := by
  unfold scan_literal_words
  split
  next t rest heq => simp
  next input1 heq1 =>
    by_cases hg1 : (decide (first.toNat = 110) && valid NIL_LITERAL) = true
    · intro _
      right; left
      have hh := hg1
      rw [Bool.and_eq_true] at hh
      exact of_decide_eq_true hh.1
    · rw [if_neg hg1] at heq1
      have hinp1 : input1 = input := (congrArg Prod.snd heq1).symm
      subst hinp1
      split
      next t rest heq => simp
      next input2 heq2 =>
        by_cases hg2 : (decide (first.toNat = 116) && valid BOOL_TRUE) = true
        · intro _
          right; right; left
          have hh := hg2
          rw [Bool.and_eq_true] at hh
          exact of_decide_eq_true hh.1
        · rw [if_neg hg2] at heq2
          have hinp2 : input2 = input1 := (congrArg Prod.snd heq2).symm
          subst hinp2
          split
          next t rest heq => simp
          next input3 heq3 =>
            by_cases hg3 : (decide (first.toNat = 102) && valid BOOL_FALSE) = true
            · intro _
              right; right; right; left
              have hh := hg3
              rw [Bool.and_eq_true] at hh
              exact of_decide_eq_true hh.1
            · rw [if_neg hg3] at heq3
              have hinp3 : input3 = input2 := (congrArg Prod.snd heq3).symm
              subst hinp3
              intro h
              rcases scan_keyword_sign_failure valid first input3 h with h' | h' | h' | h'
              · left; exact h'
              · right; right; right; right; left; exact h'
              · right; right; right; right; right; left; exact h'
              · right; right; right; right; right; right; exact h'

theorem dropWhile_ws_cons (c : Char) (rest : List Char) (h : is_clojure_whitespace c = false) :
    (c :: rest).dropWhile is_clojure_whitespace = c :: rest := by
  simp [List.dropWhile_cons, h]

theorem scan_never_erroneous_number (valid : TokenType → Bool) (input : List Char) :
    (tree_sitter_treejure_external_scanner_scan () valid input).1 ≠ some ERRONEOUS_NUMBER := by
  simp only [tree_sitter_treejure_external_scanner_scan]
  generalize input.dropWhile is_clojure_whitespace = input1
  by_cases h0 : (lookahead input1).toNat = 0
  · rw [if_pos h0]; simp
  · rw [if_neg h0]
    by_cases h1 : (decide ((lookahead input1).toNat = 34) &&
        (valid STRING_EXTERNAL || valid ERRONEOUS_STRING)) = true
    · rw [if_pos h1]
      rcases scanStringLoop_kind input1.tail false with h | h <;>
        simp [scan_string_type, h]
    · rw [if_neg h1]
      by_cases h2 : (decide ((lookahead input1).toNat = 92) &&
          (valid CHARACTER_EXTERNAL || valid ERRONEOUS_CHARACTER)) = true
      · rw [if_pos h2]
        rcases scan_character_type_kind input1 with h | h <;> simp [h]
      · rw [if_neg h2]
        by_cases h3 : (lookahead input1).toNat = 126
        · rw [if_pos h3]
          by_cases h4 : (decide ((lookahead input1.tail).toNat = 64) &&
              valid UNQUOTE_SPLICING_MARKER) = true
          · rw [if_pos h4]; simp
          · rw [if_neg h4]
            by_cases h5 : valid UNQUOTE_MARKER = true
            · rw [if_pos h5]; simp
            · rw [if_neg h5]; simp
        · rw [if_neg h3]
          by_cases h6 : (decide ((lookahead input1).toNat = 39) && valid QUOTE_MARKER) = true
          · rw [if_pos h6]; simp
          · rw [if_neg h6]
            by_cases h7 : (decide ((lookahead input1).toNat = 96) &&
                valid SYNTAX_QUOTE_MARKER) = true
            · rw [if_pos h7]; simp
            · rw [if_neg h7]
              by_cases h8 : (decide ((lookahead input1).toNat = 64) && valid DEREF_MARKER) = true
              · rw [if_pos h8]; simp
              · rw [if_neg h8]
                by_cases h9 : (decide ((lookahead input1).toNat = 94) && valid META_MARKER) = true
                · rw [if_pos h9]; simp
                · rw [if_neg h9]
                  rcases scan_literal_words_kind valid (lookahead input1) input1 with
                    h | h | h | h | h | h | h <;> simp [h]

theorem scanner_scan_failure_chars (valid : TokenType → Bool) (input : List Char) :
    (tree_sitter_treejure_external_scanner_scan () valid input).1 = none →
    ((tree_sitter_treejure_external_scanner_scan () valid input).2 =
        input.dropWhile is_clojure_whitespace ∨
      (lookahead (input.dropWhile is_clojure_whitespace)).toNat = 126 ∨
      (lookahead (input.dropWhile is_clojure_whitespace)).toNat = 43 ∨
      (lookahead (input.dropWhile is_clojure_whitespace)).toNat = 45 ∨
      c_isdigit (lookahead (input.dropWhile is_clojure_whitespace)) = true ∨
      (lookahead (input.dropWhile is_clojure_whitespace)).toNat = 110 ∨
      (lookahead (input.dropWhile is_clojure_whitespace)).toNat = 116 ∨
      (lookahead (input.dropWhile is_clojure_whitespace)).toNat = 102) := by
  simp only [tree_sitter_treejure_external_scanner_scan]
  generalize input.dropWhile is_clojure_whitespace = input1
  by_cases h0 : (lookahead input1).toNat = 0
  · rw [if_pos h0]; intro _; left; rfl
  · rw [if_neg h0]
    by_cases h1 : (decide ((lookahead input1).toNat = 34) &&
        (valid STRING_EXTERNAL || valid ERRONEOUS_STRING)) = true
    · rw [if_pos h1]; intro h; simp at h
    · rw [if_neg h1]
      by_cases h2 : (decide ((lookahead input1).toNat = 92) &&
          (valid CHARACTER_EXTERNAL || valid ERRONEOUS_CHARACTER)) = true
      · rw [if_pos h2]; intro h; simp at h
      · rw [if_neg h2]
        by_cases h3 : (lookahead input1).toNat = 126
        · rw [if_pos h3]; intro _; right; left; exact h3
        · rw [if_neg h3]
          by_cases h6 : (decide ((lookahead input1).toNat = 39) && valid QUOTE_MARKER) = true
          · rw [if_pos h6]; intro h; simp at h
          · rw [if_neg h6]
            by_cases h7 : (decide ((lookahead input1).toNat = 96) &&
                valid SYNTAX_QUOTE_MARKER) = true
            · rw [if_pos h7]; intro h; simp at h
            · rw [if_neg h7]
              by_cases h8 : (decide ((lookahead input1).toNat = 64) && valid DEREF_MARKER) = true
              · rw [if_pos h8]; intro h; simp at h
              · rw [if_neg h8]
                by_cases h9 : (decide ((lookahead input1).toNat = 94) && valid META_MARKER) = true
                · rw [if_pos h9]; intro h; simp at h
                · rw [if_neg h9]
                  intro h
                  rcases scan_literal_words_failure valid (lookahead input1) input1 h with
                    h' | h' | h' | h' | h' | h' | h'
                  · left; exact h'
                  · right; right; right; right; right; left; exact h'
                  · right; right; right; right; right; right; left; exact h'
                  · right; right; right; right; right; right; right; exact h'
                  · right; right; left; exact h'
                  · right; right; right; left; exact h'
                  · right; right; right; right; left; exact h'

theorem lookahead_cons (c : Char) (l : List Char) : lookahead (c :: l) = c := rfl

theorem lookahead_nil : lookahead [] = Char.ofNat 0 := rfl

theorem scan_tilde_consumes_on_failure (valid : TokenType → Bool) (rest : List Char)
    (hU : valid UNQUOTE_MARKER = false) (hS : valid UNQUOTE_SPLICING_MARKER = false) :
    tree_sitter_treejure_external_scanner_scan () valid ('~' :: rest) = (none, rest) := by
  have hd := dropWhile_ws_cons '~' rest (by decide)
  simp [tree_sitter_treejure_external_scanner_scan, hd, lookahead_cons, hU, hS]

theorem scan_sign_symbol_total (valid : TokenType → Bool) (c : Char) (rest : List Char)
    (hc : c.toNat = 43 ∨ c.toNat = 45) (hsym : valid SYMBOL = true) :
    (tree_sitter_treejure_external_scanner_scan () valid (c :: rest)).1.isSome = true := by
  have hws : is_clojure_whitespace c = false := by
    unfold is_clojure_whitespace
    simp only [Bool.or_eq_false_iff, decide_eq_false_iff_not, Bool.and_eq_false_iff]
    omega
  have hd := dropWhile_ws_cons c rest hws
  rcases hc with hc | hc <;>
  · simp only [tree_sitter_treejure_external_scanner_scan, hd, lookahead_cons, hc,
      scan_literal_words, scan_keyword_sign, List.tail_cons]
    norm_num
    by_cases h4 : c_isdigit (lookahead rest) = true ∧ valid NUMBER = true
    · rw [if_pos h4]
      by_cases h5 : (finish_number rest true).1 = true
      · rw [if_pos h5]; simp
      · rw [if_neg h5, if_pos hsym, scan_identifier_fst]
        have := scanIdentifierLoop_le (finish_number rest true).2 1
        rw [if_pos (by omega)]
        simp
    · rw [if_neg h4, if_pos hsym, scan_identifier_fst]
      have := scanIdentifierLoop_le rest 1
      rw [if_pos (by omega)]
      simp

theorem scan_colon_keyword_total (valid : TokenType → Bool) (rest : List Char)
    (hkw : valid KEYWORD = true) :
    (tree_sitter_treejure_external_scanner_scan () valid (':' :: rest)).1 = some KEYWORD := by
  have hd := dropWhile_ws_cons ':' rest (by decide)
  have h58 : (':').toNat = 58 := by decide
  simp only [tree_sitter_treejure_external_scanner_scan, hd, lookahead_cons, h58,
    scan_literal_words, scan_keyword_sign, List.tail_cons]
  norm_num
  rw [if_pos hkw]
  by_cases h2 : (lookahead rest).toNat = 58
  · rw [if_pos h2, scan_identifier_fst]
    have := scanIdentifierLoop_le rest.tail 2
    rw [if_pos (by omega)]
  · rw [if_neg h2, scan_identifier_fst]
    have := scanIdentifierLoop_le rest 1
    rw [if_pos (by omega)]

theorem not_number_end_of_digit_marker (c : Char)
    (h : c_isdigit c = true ∨ numMarkerChar c = true) : is_number_end c = false := by
  simp only [c_isdigit, numMarkerChar, Bool.and_eq_true, Bool.or_eq_true,
    decide_eq_true_eq] at h
  simp only [is_number_end, is_clojure_whitespace, is_macro_char, Bool.or_eq_false_iff,
    decide_eq_false_iff_not, Bool.and_eq_false_iff, decide_eq_false_iff_not]
  omega

theorem finishNumberLoop_digits_markers (cs : List Char) (hd : Bool)
    (hcs : ∀ x ∈ cs, c_isdigit x = true ∨ numMarkerChar x = true) :
    finishNumberLoop cs hd false false = ((hd || cs.any c_isdigit), []) := by
  induction cs generalizing hd with
  | nil => simp [finishNumberLoop]
  | cons c rs ih =>
    have hc := hcs c (List.mem_cons_self c rs)
    have hrs : ∀ x ∈ rs, c_isdigit x = true ∨ numMarkerChar x = true :=
      fun x hx => hcs x (List.mem_cons_of_mem c hx)
    have hne := not_number_end_of_digit_marker c hc
    rcases hc with hdig | hmark
    · simp only [finishNumberLoop, hne, Bool.false_eq_true, if_false, hdig, if_true]
      rw [ih true hrs]
      simp [hdig]
    · have hndig : c_isdigit c = false := by
        simp only [numMarkerChar, Bool.or_eq_true, decide_eq_true_eq] at hmark
        simp only [c_isdigit, Bool.and_eq_false_iff, decide_eq_false_iff_not]
        omega
      have h114 : ¬(c.toNat = 114) := by
        simp only [numMarkerChar, Bool.or_eq_true, decide_eq_true_eq] at hmark
        omega
      have h82 : ¬(c.toNat = 82) := by
        simp only [numMarkerChar, Bool.or_eq_true, decide_eq_true_eq] at hmark
        omega
      have hmark' : (decide (c.toNat = 46) || decide (c.toNat = 47) || decide (c.toNat = 101) ||
          decide (c.toNat = 69) || decide (c.toNat = 77) || decide (c.toNat = 78) ||
          decide (c.toNat = 43) || decide (c.toNat = 45)) = true := by
        simpa [numMarkerChar] using hmark
      simp only [finishNumberLoop, hne, Bool.false_eq_true, if_false, hndig, h114, h82,
        Bool.false_and, Bool.and_false, decide_False, Bool.false_or, hmark', if_true]
      rw [ih hd hrs]
      simp [hndig]

theorem finish_number_digits_markers (c : Char) (cs : List Char)
    (hc : c_isdigit c = true)
    (hcs : ∀ x ∈ cs, c_isdigit x = true ∨ numMarkerChar x = true) :
    finish_number (c :: cs) false = (true, []) := by
  unfold finish_number
  by_cases h0 : c = '0'
  · rw [if_pos (by simp [lookahead_cons, h0])]
    have hx : (lookahead ((c :: cs).tail) = 'x' ∨ lookahead ((c :: cs).tail) = 'X') → False := by
      intro hl
      cases cs with
      | nil =>
        simp only [List.tail_cons] at hl
        rcases hl with h | h <;> exact absurd h (by decide)
      | cons d ds =>
        have hdp := hcs d (List.mem_cons_self d ds)
        simp only [List.tail_cons, lookahead_cons] at hl
        simp only [c_isdigit, numMarkerChar, Bool.and_eq_true, Bool.or_eq_true,
          decide_eq_true_eq] at hdp
        rcases hl with h | h <;> (rw [h] at hdp; exact absurd hdp (by decide))
    rw [if_neg (by simpa using fun h => hx h)]
    rw [finishNumberLoop_digits_markers ((c :: cs).tail) true (by simpa using hcs)]
    simp
  · rw [if_neg (by simp [lookahead_cons, h0])]
    have : finishNumberLoop (c :: cs) false false false = (false || (c :: cs).any c_isdigit, []) :=
      finishNumberLoop_digits_markers (c :: cs) false
        (fun x hx => by
          rcases List.mem_cons.mp hx with rfl | hmem
          · exact Or.inl hc
          · exact hcs x hmem)
    rw [this]
    simp [hc]

theorem scan_digit_marker_run_number (valid : TokenType → Bool) (c : Char) (cs : List Char)
    (hc : c_isdigit c = true)
    (hcs : ∀ x ∈ cs, c_isdigit x = true ∨ numMarkerChar x = true)
    (hnum : valid NUMBER = true) :
    tree_sitter_treejure_external_scanner_scan () valid (c :: cs) = (some NUMBER, []) := by
  have hn : 48 ≤ c.toNat ∧ c.toNat ≤ 57 := by
    simpa [c_isdigit, Bool.and_eq_true, decide_eq_true_eq] using hc
  obtain ⟨hn1, hn2⟩ := hn
  have hws : is_clojure_whitespace c = false := by
    simp only [is_clojure_whitespace, Bool.or_eq_false_iff, decide_eq_false_iff_not,
      Bool.and_eq_false_iff]
    omega
  have hd := dropWhile_ws_cons c cs hws
  have g0 : ¬(c.toNat = 0) := by omega
  have g34 : ¬(c.toNat = 34) := by omega
  have g92 : ¬(c.toNat = 92) := by omega
  have g126 : ¬(c.toNat = 126) := by omega
  have g39 : ¬(c.toNat = 39) := by omega
  have g96 : ¬(c.toNat = 96) := by omega
  have g64 : ¬(c.toNat = 64) := by omega
  have g94 : ¬(c.toNat = 94) := by omega
  have g110 : ¬(c.toNat = 110) := by omega
  have g116 : ¬(c.toNat = 116) := by omega
  have g102 : ¬(c.toNat = 102) := by omega
  have g58 : ¬(c.toNat = 58) := by omega
  have g43 : ¬(c.toNat = 43) := by omega
  have g45 : ¬(c.toNat = 45) := by omega
  simp [tree_sitter_treejure_external_scanner_scan, hd, lookahead_cons,
    scan_literal_words, scan_keyword_sign, scan_number_symbol,
    g0, g34, g92, g126, g39, g96, g64, g94, g110, g116, g102, g58, g43, g45,
    hc, hnum, finish_number_digits_markers c cs hc hcs]

theorem scanStringLoop_escape (c : Char) (rest : List Char) (hc : c.toNat ≠ 0) :
    scanStringLoop ('\\' :: c :: rest) false = scanStringLoop rest false := by
  simp [scanStringLoop, hc]

theorem scanStringLoop_close (rest : List Char) :
    scanStringLoop ('"' :: rest) false = (STRING_EXTERNAL, rest) := by
  simp [scanStringLoop]

theorem scanStringLoop_erroneous_consumes_all (input : List Char) :
    ∀ esc : Bool, (∀ ch ∈ input, ch.toNat ≠ 0) →
      (scanStringLoop input esc).1 = ERRONEOUS_STRING → (scanStringLoop input esc).2 = [] := by
  induction input with
  | nil => intro esc _ _; simp [scanStringLoop]
  | cons c rest ih =>
    intro esc hn he
    have hc : c.toNat ≠ 0 := hn c (List.mem_cons_self c rest)
    have hrest : ∀ x ∈ rest, x.toNat ≠ 0 := fun x hx => hn x (List.mem_cons_of_mem c hx)
    by_cases hesc : esc = true
    · subst hesc
      simp [scanStringLoop, hc] at he ⊢
      exact ih false hrest he
    · have hesc' : esc = false := by cases esc <;> simp_all
      subst hesc'
      by_cases hbk : c = '\\'
      · subst hbk
        simp [scanStringLoop] at he ⊢
        exact ih true hrest he
      · by_cases hq : c = '"'
        · subst hq
          simp [scanStringLoop] at he
        · simp [scanStringLoop, hc, hbk, hq] at he ⊢
          exact ih false hrest he

theorem classify_character_eq_charRunOK (buf : List Char) :
    classify_character buf =
      (if charRunOK buf then CHARACTER_EXTERNAL else ERRONEOUS_CHARACTER) := by
  unfold classify_character charRunOK
  simp only [Bool.or_eq_true, Bool.and_eq_true, decide_eq_true_eq]
  split_ifs <;>
    first
      | rfl
      | tauto
      | (exfalso; simp_all)
      | skip
  all_goals
    exfalso
    obtain ⟨x, hx, hfx⟩ : ∃ x ∈ buf.tail, c_isxdigit x = false := by assumption
    have htx : ∀ x ∈ buf.tail, c_isxdigit x = true := by assumption
    have hxx := htx x hx
    rw [hxx] at hfx
    exact Bool.noConfusion hfx

theorem scanCharLoop_eq (rest : List Char) : ∀ buf : List Char,
    scanCharLoop rest buf =
      (buf ++ ((rest.takeWhile (fun x => !is_token_end x)).take (31 - buf.length)).map charByte,
       rest.drop ((rest.takeWhile (fun x => !is_token_end x)).take (31 - buf.length)).length) := by
  induction rest with
  | nil => intro buf; simp [scanCharLoop]
  | cons c rs ih =>
    intro buf
    by_cases hend : is_token_end c = true
    · simp [scanCharLoop, hend, List.takeWhile_cons]
    · have hendf : is_token_end c = false := by
        cases h : is_token_end c
        · rfl
        · exact absurd h hend
      have htw : (c :: rs).takeWhile (fun x => !is_token_end x) =
          c :: rs.takeWhile (fun x => !is_token_end x) := by
        simp [List.takeWhile_cons, hendf]
      by_cases hlen : 31 ≤ buf.length
      · have h0 : 31 - buf.length = 0 := by omega
        have hl : scanCharLoop (c :: rs) buf = (buf, c :: rs) := by
          simp only [scanCharLoop, hendf, Bool.false_eq_true, if_false]
          rw [if_pos hlen]
        rw [hl, h0, htw]
        simp
      · have harith : 31 - buf.length = (31 - (buf.length + 1)) + 1 := by omega
        have hstep : scanCharLoop (c :: rs) buf = scanCharLoop rs (buf ++ [charByte c]) := by
          simp only [scanCharLoop, hendf, Bool.false_eq_true, if_false]
          rw [if_neg hlen]
        rw [hstep, ih (buf ++ [charByte c]), htw, harith]
        have hlen1 : (buf ++ [charByte c]).length = buf.length + 1 := by simp
        rw [hlen1]
        rw [List.take_succ_cons, List.map_cons, List.append_cons]
        rw [List.length_cons, List.drop_succ_cons]
        simp

theorem scan_character_type_spec_eq (rest : List Char) :
    scan_character_type ('\\' :: rest) = character_scan_spec rest := by
  cases rest with
  | nil => rfl
  | cons c rest1 =>
    simp only [scan_character_type, List.tail_cons, character_scan_spec]
    by_cases h0 : c.toNat = 0
    · rw [if_pos h0, if_pos h0]
    · rw [if_neg h0, if_neg h0]
      by_cases hend : is_token_end (lookahead rest1) = true
      · rw [if_pos hend, if_pos hend]
      · rw [if_neg hend, if_neg hend]
        rw [scanCharLoop_eq rest1 [charByte c]]
        have hlen : (31 : Nat) - ([charByte c]).length = 30 := by simp
        rw [hlen]
        simp only [classify_character_eq_charRunOK, List.singleton_append, List.map_cons]

theorem scan_backslash_dispatch (valid : TokenType → Bool) (rest : List Char)
    (hv : (valid CHARACTER_EXTERNAL || valid ERRONEOUS_CHARACTER) = true) :
    tree_sitter_treejure_external_scanner_scan () valid ('\\' :: rest) =
      (some (scan_character_type ('\\' :: rest)).1, (scan_character_type ('\\' :: rest)).2) := by
  have hd := dropWhile_ws_cons '\\' rest (by decide)
  simp [tree_sitter_treejure_external_scanner_scan, hd, lookahead_cons, hv]

theorem scan_quote_dispatch (valid : TokenType → Bool) (rest : List Char)
    (hv : (valid STRING_EXTERNAL || valid ERRONEOUS_STRING) = true) :
    tree_sitter_treejure_external_scanner_scan () valid ('"' :: rest) =
      (some (scanStringLoop rest false).1, (scanStringLoop rest false).2) := by
  have hd := dropWhile_ws_cons '"' rest (by decide)
  simp [tree_sitter_treejure_external_scanner_scan, hd, lookahead_cons, hv, scan_string_type]

theorem finishNumberLoop_suffix (cs : List Char) : ∀ hd hex radix,
    (finishNumberLoop cs hd hex radix).2 <:+ cs := by
  induction cs with
  | nil => intro hd hex radix; simp [finishNumberLoop]
  | cons c rest ih =>
    intro hd hex radix
    simp only [finishNumberLoop]
    split_ifs <;>
      first
        | exact List.suffix_refl _
        | exact (ih _ _ _).trans (List.suffix_cons c rest)

theorem finish_number_suffix (input : List Char) (hd : Bool) :
    (finish_number input hd).2 <:+ input := by
  simp only [finish_number]
  split_ifs
  · exact ((finishNumberLoop_suffix input.tail.tail _ _ _).trans
      (List.tail_suffix input.tail)).trans (List.tail_suffix input)
  · exact (finishNumberLoop_suffix input.tail _ _ _).trans (List.tail_suffix input)
  · exact finishNumberLoop_suffix input _ _ _

theorem scanIdentifierLoop_suffix (input : List Char) : ∀ n : Nat,
    (scanIdentifierLoop input n).2 <:+ input := by
  induction input with
  | nil => intro n; simp [scanIdentifierLoop]
  | cons c rest ih =>
    intro n
    simp only [scanIdentifierLoop]
    split_ifs
    · exact List.suffix_refl _
    · exact (ih _).trans (List.suffix_cons c rest)

theorem scan_identifier_suffix (input : List Char) (k : Nat) (rt : TokenType) :
    (scan_identifier input k rt).2 <:+ input :=
  scanIdentifierLoop_suffix input k

theorem scanStringLoop_suffix (input : List Char) : ∀ esc : Bool,
    (scanStringLoop input esc).2 <:+ input := by
  induction input with
  | nil => intro esc; simp [scanStringLoop]
  | cons c rest ih =>
    intro esc
    simp only [scanStringLoop]
    split_ifs <;>
      first
        | exact List.suffix_refl _
        | exact List.suffix_cons c rest
        | exact (ih _).trans (List.suffix_cons c rest)

theorem scan_string_type_suffix (input : List Char) :
    (scan_string_type input).2 <:+ input :=
  (scanStringLoop_suffix input.tail false).trans (List.tail_suffix input)

theorem scan_character_type_suffix (input : List Char) :
    (scan_character_type input).2 <:+ input := by
  unfold scan_character_type
  cases input with
  | nil => simp
  | cons a input' =>
    simp only [List.tail_cons]
    cases input' with
    | nil => simp
    | cons c rest1 =>
      dsimp only
      split_ifs
      · exact List.suffix_cons a (c :: rest1)
      · exact (List.suffix_cons c rest1).trans (List.suffix_cons a (c :: rest1))
      · rw [scanCharLoop_eq rest1 [charByte c]]
        exact ((List.drop_suffix _ rest1).trans (List.suffix_cons c rest1)).trans
          (List.suffix_cons a (c :: rest1))

theorem scan_exact_word_suffix (word : List Char) : ∀ (input : List Char) (rt : TokenType),
    (scan_exact_word input word rt).2 <:+ input := by
  induction word with
  | nil =>
    intro input rt
    simp only [scan_exact_word]
    split_ifs <;> exact List.suffix_refl _
  | cons w ws ih =>
    intro input rt
    cases input with
    | nil => simp [scan_exact_word]
    | cons c rest =>
      simp only [scan_exact_word]
      split_ifs
      · exact (ih rest rt).trans (List.suffix_cons c rest)
      · exact List.suffix_refl _

theorem scan_number_symbol_suffix (valid : TokenType → Bool) (first : Char) (input : List Char) :
    (scan_number_symbol valid first input).2 <:+ input := by
  unfold scan_number_symbol
  split
  next t rest heq =>
    split_ifs at heq with hg hfn
    · have h2 : (finish_number input false).2 = rest := congrArg Prod.snd heq
      exact h2 ▸ finish_number_suffix input false
    · exact Option.noConfusion (congrArg Prod.fst heq)
    · exact Option.noConfusion (congrArg Prod.fst heq)
  next input1 heq =>
    have hs1 : input1 <:+ input := by
      split_ifs at heq with hg hfn
      · exact Option.noConfusion (congrArg Prod.fst heq)
      · have h2 : (finish_number input false).2 = input1 := congrArg Prod.snd heq
        exact h2 ▸ finish_number_suffix input false
      · have h2 : input = input1 := congrArg Prod.snd heq
        exact h2 ▸ List.suffix_refl input
    split_ifs with hs
    · exact (scan_identifier_suffix input1 0 SYMBOL).trans hs1
    · exact hs1

theorem scan_keyword_sign_suffix (valid : TokenType → Bool) (first : Char) (input : List Char) :
    (scan_keyword_sign valid first input).2 <:+ input := by
  simp only [scan_keyword_sign]
  split_ifs <;>
    first
      | exact (scan_identifier_suffix input.tail.tail 2 KEYWORD).trans
          ((List.tail_suffix input.tail).trans (List.tail_suffix input))
      | exact (scan_identifier_suffix input.tail 1 KEYWORD).trans (List.tail_suffix input)
      | exact ((scan_identifier_suffix (finish_number input.tail true).2 1 SYMBOL).trans
          (finish_number_suffix input.tail true)).trans (List.tail_suffix input)
      | exact (finish_number_suffix input.tail true).trans (List.tail_suffix input)
      | exact (scan_identifier_suffix input.tail 1 SYMBOL).trans (List.tail_suffix input)
      | exact List.tail_suffix input
      | exact scan_number_symbol_suffix valid first input
theorem scan_literal_words_suffix (valid : TokenType → Bool) (first : Char) (input : List Char) :
    (scan_literal_words valid first input).2 <:+ input := by
  unfold scan_literal_words
  split
  next t rest heq =>
    split_ifs at heq with hg
    · have h2 : (scan_exact_word input ['n', 'i', 'l'] NIL_LITERAL).2 = rest :=
        congrArg Prod.snd heq
      exact h2 ▸ scan_exact_word_suffix ['n', 'i', 'l'] input NIL_LITERAL
    · simp at heq
  next input1 heq1 =>
    have hs1 : input1 <:+ input := by
      split_ifs at heq1 with hg
      · have h2 : (scan_exact_word input ['n', 'i', 'l'] NIL_LITERAL).2 = input1 :=
          congrArg Prod.snd heq1
        exact h2 ▸ scan_exact_word_suffix ['n', 'i', 'l'] input NIL_LITERAL
      · have h2 : input = input1 := congrArg Prod.snd heq1
        exact h2 ▸ List.suffix_refl input
    split
    next t rest heq =>
      split_ifs at heq with hg
      · have h2 : (scan_exact_word input1 ['t', 'r', 'u', 'e'] BOOL_TRUE).2 = rest :=
          congrArg Prod.snd heq
        exact (h2 ▸ scan_exact_word_suffix ['t', 'r', 'u', 'e'] input1 BOOL_TRUE).trans hs1
      · simp at heq
    next input2 heq2 =>
      have hs2 : input2 <:+ input := by
        have hs21 : input2 <:+ input1 := by
          split_ifs at heq2 with hg
          · have h2 : (scan_exact_word input1 ['t', 'r', 'u', 'e'] BOOL_TRUE).2 = input2 :=
              congrArg Prod.snd heq2
            exact h2 ▸ scan_exact_word_suffix ['t', 'r', 'u', 'e'] input1 BOOL_TRUE
          · have h2 : input1 = input2 := congrArg Prod.snd heq2
            exact h2 ▸ List.suffix_refl input1
        exact hs21.trans hs1
      split
      next t rest heq =>
        split_ifs at heq with hg
        · have h2 : (scan_exact_word input2 ['f', 'a', 'l', 's', 'e'] BOOL_FALSE).2 = rest :=
            congrArg Prod.snd heq
          exact (h2 ▸ scan_exact_word_suffix ['f', 'a', 'l', 's', 'e'] input2 BOOL_FALSE).trans hs2
        · simp at heq
      next input3 heq3 =>
        have hs3 : input3 <:+ input := by
          have hs31 : input3 <:+ input2 := by
            split_ifs at heq3 with hg
            · have h2 : (scan_exact_word input2 ['f', 'a', 'l', 's', 'e'] BOOL_FALSE).2 = input3 :=
                congrArg Prod.snd heq3
              exact h2 ▸ scan_exact_word_suffix ['f', 'a', 'l', 's', 'e'] input2 BOOL_FALSE
            · have h2 : input2 = input3 := congrArg Prod.snd heq3
              exact h2 ▸ List.suffix_refl input2
          exact hs31.trans hs2
        exact (scan_keyword_sign_suffix valid first input3).trans hs3

theorem scanner_scan_suffix (valid : TokenType → Bool) (input : List Char) :
    (tree_sitter_treejure_external_scanner_scan () valid input).2 <:+ input := by
  have hdw : input.dropWhile is_clojure_whitespace <:+ input := List.dropWhile_suffix _
  simp only [tree_sitter_treejure_external_scanner_scan]
  generalize hI : input.dropWhile is_clojure_whitespace = input1
  rw [hI] at hdw
  split_ifs <;>
    first
      | exact hdw
      | exact (scan_string_type_suffix input1).trans hdw
      | exact (scan_character_type_suffix input1).trans hdw
      | exact ((List.tail_suffix input1.tail).trans (List.tail_suffix input1)).trans hdw
      | exact (List.tail_suffix input1).trans hdw
      | exact (scan_literal_words_suffix valid (lookahead input1) input1).trans hdw

theorem char_toNat_inj (a b : Char) (h : a.toNat = b.toNat) : a = b := by
  have ha := Char.ofNat_toNat a
  have hb := Char.ofNat_toNat b
  rw [← ha, ← hb, h]

theorem char_eq_iff_toNat (a b : Char) : a = b ↔ a.toNat = b.toNat :=
  ⟨fun h => by rw [h], char_toNat_inj a b⟩

theorem is_macro_terminating_characterization (c : Char) :
    is_macro_terminating c =
      (is_macro_char c && !(c = '#' || c = '\'' || c = ':')) := by
  by_cases hm : is_macro_char c = true
  · simp only [is_macro_terminating, hm, Bool.not_true, Bool.false_eq_true, if_false,
      Bool.true_and]
    rw [Bool.eq_iff_iff]
    simp only [decide_eq_true_eq, Bool.not_eq_true', Bool.or_eq_false_iff,
      decide_eq_false_iff_not, char_eq_iff_toNat]
    have h35 : ('#').toNat = 35 := by decide
    have h39 : ('\'').toNat = 39 := by decide
    have h58 : (':').toNat = 58 := by decide
    rw [h35, h39, h58]
    omega
  · have hm' : is_macro_char c = false := by simpa using hm
    simp [is_macro_terminating, hm']

theorem parseMacroTail_mandatory_target (fuel : Nat) (toks : List ReaderTok)
    (mk : List Form → Form → Form) (f : Form) (rest : List ReaderTok)
    (h : parseMacroTail (fuel + 1) toks mk = some (f, rest)) :
    ∃ t, parseVisibleForm fuel (parseDiscards fuel toks).2 = some (t, rest) ∧
      f = mk (parseDiscards fuel toks).1 t := by
  simp only [parseMacroTail] at h
  split at h
  next t rest2 heq =>
    simp only [Option.some.injEq, Prod.mk.injEq] at h
    exact ⟨t, h.2 ▸ heq, h.1.symm⟩
  next heq => exact Option.noConfusion h

theorem parseDiscard_mandatory_target (fuel : Nat) (rest0 : List ReaderTok)
    (f : Form) (rest : List ReaderTok)
    (h : parseDiscard (fuel + 1) (ReaderTok.discardTok :: rest0) = some (f, rest)) :
    ∃ t, parseVisibleForm fuel (parseDiscards fuel rest0).2 = some (t, rest) ∧
      f = Form.discard (parseDiscards fuel rest0).1 t := by
  simp only [parseDiscard] at h
  split at h
  next t rest2 heq =>
    simp only [Option.some.injEq, Prod.mk.injEq] at h
    exact ⟨t, h.2 ▸ heq, h.1.symm⟩
  next heq => exact Option.noConfusion h

theorem parseMetaTail_no_target (fuel : Nat) (v : Form) (toks : List ReaderTok)
    (h : parseVisibleForm fuel (parseDiscards fuel toks).2 = none) :
    parseMetaTail (fuel + 1) v toks =
      (Form.withMetadata v (parseDiscards fuel toks).1 none,
       (parseDiscards fuel toks).2) := by
  simp only [parseMetaTail, h]

/-!
## The claims
-/

/-- C1 counterexample: the claim "if the external scanner returns failure
then it has not consumed any significant characters" is false.  On the
input tilde-x with an empty candidate set, the tilde branch consumes the
tilde before consulting the candidate set (scanner.c line 382) and then
returns `false` with the cursor already advanced. -/
theorem claim_C1_counterexample :
    (tree_sitter_treejure_external_scanner_scan () noValid ['~', 'x']).1 = none ∧
    (tree_sitter_treejure_external_scanner_scan () noValid ['~', 'x']).2 = ['x'] ∧
    ['x'] ≠ ['~', 'x'] := by decide

/-- C1 (amended): if the scanner returns failure, the cursor is exactly
where dispatch began (beyond skipped whitespace) unless the first
significant code point was a tilde, a sign, a digit, or the start of an
exact-word attempt (n, t, f): those branches can consume and then fail.
The sign branch with Symbol requested and the keyword branch with Keyword
requested always produce a token, and the tilde branch consumes the tilde
and fails whenever neither unquote kind is requested. -/
theorem claim_C1_amended :
    (∀ (valid : TokenType → Bool) (input : List Char),
      (tree_sitter_treejure_external_scanner_scan () valid input).1 = none →
      ((tree_sitter_treejure_external_scanner_scan () valid input).2 =
          input.dropWhile is_clojure_whitespace ∨
        (lookahead (input.dropWhile is_clojure_whitespace)).toNat = 126 ∨
        (lookahead (input.dropWhile is_clojure_whitespace)).toNat = 43 ∨
        (lookahead (input.dropWhile is_clojure_whitespace)).toNat = 45 ∨
        c_isdigit (lookahead (input.dropWhile is_clojure_whitespace)) = true ∨
        (lookahead (input.dropWhile is_clojure_whitespace)).toNat = 110 ∨
        (lookahead (input.dropWhile is_clojure_whitespace)).toNat = 116 ∨
        (lookahead (input.dropWhile is_clojure_whitespace)).toNat = 102)) ∧
    (∀ (valid : TokenType → Bool) (rest : List Char),
      valid UNQUOTE_MARKER = false → valid UNQUOTE_SPLICING_MARKER = false →
      tree_sitter_treejure_external_scanner_scan () valid ('~' :: rest) = (none, rest)) ∧
    (∀ (valid : TokenType → Bool) (c : Char) (rest : List Char),
      c.toNat = 43 ∨ c.toNat = 45 → valid SYMBOL = true →
      (tree_sitter_treejure_external_scanner_scan () valid (c :: rest)).1.isSome = true) ∧
    (∀ (valid : TokenType → Bool) (rest : List Char),
      valid KEYWORD = true →
      (tree_sitter_treejure_external_scanner_scan () valid (':' :: rest)).1 = some KEYWORD) :=
  ⟨scanner_scan_failure_chars, scan_tilde_consumes_on_failure,
   fun valid c rest hc hs => scan_sign_symbol_total valid c rest hc hs,
   scan_colon_keyword_total⟩

/-- C1 witness: the amended claim applied at concrete inputs — the tilde
branch on tilde-x with no kinds requested, and the keyword branch on a
colon-led input. -/
theorem claim_C1_amended_witness :
    tree_sitter_treejure_external_scanner_scan () noValid ('~' :: ['x']) = (none, ['x']) ∧
    (tree_sitter_treejure_external_scanner_scan () allValid (':' :: "foo".toList)).1 =
      some KEYWORD :=
  ⟨claim_C1_amended.2.1 noValid ['x'] rfl rfl,
   claim_C1_amended.2.2.2 allValid "foo".toList rfl⟩

/-- C2 counterexample: the claim that a malformed run such as `1.2.3`
scans as ErroneousNumber, never as a Number, is false: the final number
scanner accepts the full stop unconditionally (scanner.c line 283), so
`1.2.3` scans as a single NUMBER token covering the whole run. -/
theorem claim_C2_counterexample :
    tree_sitter_treejure_external_scanner_scan () allValid ("1.2.3".toList) =
      (some NUMBER, []) ∧
    (NUMBER : TokenType) ≠ ERRONEOUS_NUMBER := by decide

/-- C2 (amended): the scanner never emits an ErroneousNumber token for
any input or candidate set (the kind is declared by the grammar but has
no scanner counterpart); `1.2.3` scans as a single NUMBER covering the
whole run; and on a genuinely invalid mid-number character the scanner
stops without consuming the rest of the run and produces no token at all
(`1x` fails leaving the x unconsumed), rather than committing to an
erroneous token. -/
theorem claim_C2_amended :
    (∀ (valid : TokenType → Bool) (input : List Char),
      (tree_sitter_treejure_external_scanner_scan () valid input).1 ≠ some ERRONEOUS_NUMBER) ∧
    tree_sitter_treejure_external_scanner_scan () allValid ("1.2.3".toList) =
      (some NUMBER, []) ∧
    tree_sitter_treejure_external_scanner_scan () allValid ("1x".toList) = (none, ['x']) :=
  ⟨scan_never_erroneous_number, by decide, by decide⟩

/-- C2 witness: the no-ErroneousNumber conjunct applied at a concrete
input and candidate set. -/
theorem claim_C2_amended_witness :
    (tree_sitter_treejure_external_scanner_scan () allValid ['1']).1 ≠
      some ERRONEOUS_NUMBER :=
  claim_C2_amended.1 allValid ['1']

/-- C3 counterexample: the claim that material after an N/M suffix does
not scan as a well-formed Number is false: `1N2` scans as a single NUMBER
(the final number scanner has no suffix handling; N is accepted
unconditionally mid-number, scanner.c line 283). -/
theorem claim_C3_counterexample :
    tree_sitter_treejure_external_scanner_scan () allValid ("1N2".toList) =
      (some NUMBER, []) := by decide

/-- C3 (amended): in the final number sub-scanner there are no
float/ratio modes and no suffix check: the marker characters full stop,
slash, e, E, M, N, plus and minus are accepted unconditionally
mid-number, so every run of digits and markers that starts with a digit
and contains at least that digit scans as one NUMBER token consuming the
whole input; in particular repeated markers (`1.2.3N`) still scan as a
Number. -/
theorem claim_C3_amended :
    (∀ (valid : TokenType → Bool) (c : Char) (cs : List Char),
      c_isdigit c = true →
      (∀ x ∈ cs, c_isdigit x = true ∨ numMarkerChar x = true) →
      valid NUMBER = true →
      tree_sitter_treejure_external_scanner_scan () valid (c :: cs) = (some NUMBER, [])) ∧
    tree_sitter_treejure_external_scanner_scan () allValid ("1.2.3N".toList) =
      (some NUMBER, []) :=
  ⟨fun valid c cs hc hcs hv => scan_digit_marker_run_number valid c cs hc hcs hv, by decide⟩

/-- C3 witness: the amended run theorem applied at a concrete digit and
marker run. -/
theorem claim_C3_amended_witness :
    tree_sitter_treejure_external_scanner_scan () allValid ('7' :: ['.', '.', '8']) =
      (some NUMBER, []) :=
  claim_C3_amended.1 allValid '7' ['.', '.', '8'] (by decide) (by decide) rfl

/-- C4 counterexample: the claim that a failed exact-word match always
resumes with an identifier scan seeded by the consumed prefix and
produces a single Symbol is false: the code seeds the generic symbol
catch-all with zero (scanner.c line 423), so on `n(` the n is consumed by
the nil attempt, the identifier scan then counts zero characters before
the token boundary, and the scanner fails without producing any token. -/
theorem claim_C4_counterexample :
    tree_sitter_treejure_external_scanner_scan () allValid ['n', '('] = (none, ['(']) := by
  decide

/-- C4 (amended): after a failed exact-word match the dispatcher falls
through to the symbol catch-all seeded with zero, never re-reading
source.  The consumed prefix still extends the token span, so a mismatch
at a non-boundary character yields a single Symbol covering the whole run
(`nilly` is one Symbol), but when the mismatch position is already a
token boundary the zero-seeded identifier scan fails with the prefix
consumed (`tr[` produces no token): `scan_identifier` with seed zero
succeeds exactly when the current character is not a token boundary. -/
theorem claim_C4_amended :
    tree_sitter_treejure_external_scanner_scan () allValid ("nilly".toList) =
      (some SYMBOL, []) ∧
    tree_sitter_treejure_external_scanner_scan () allValid ("tr[".toList) = (none, ['[']) ∧
    (∀ (input : List Char) (rt : TokenType),
      (scan_identifier input 0 rt).1.isSome = !is_token_end (lookahead input)) :=
  ⟨by decide, by decide, scan_identifier_zero_isSome⟩

/-- C5: the macro-terminating class is exactly the macro set minus hash,
single-quote and colon; those three are not token boundaries, so they may
occur inside symbol and keyword bodies (`:foo`, `::foo`, `:foo#bar` and
`:a:b` all scan as one Keyword consuming the full input), while a
macro-terminating character such as an opening paren ends a preceding
symbol. -/
theorem claim_C5 :
    (∀ c : Char, is_macro_terminating c =
      (is_macro_char c && !(c = '#' || c = '\'' || c = ':'))) ∧
    is_token_end '#' = false ∧ is_token_end '\'' = false ∧ is_token_end ':' = false ∧
    tree_sitter_treejure_external_scanner_scan () allValid (":foo".toList) =
      (some KEYWORD, []) ∧
    tree_sitter_treejure_external_scanner_scan () allValid ("::foo".toList) =
      (some KEYWORD, []) ∧
    tree_sitter_treejure_external_scanner_scan () allValid (":foo#bar".toList) =
      (some KEYWORD, []) ∧
    tree_sitter_treejure_external_scanner_scan () allValid (":a:b".toList) =
      (some KEYWORD, []) ∧
    tree_sitter_treejure_external_scanner_scan () allValid ("foo(x".toList) =
      (some SYMBOL, ['(', 'x']) :=
  ⟨is_macro_terminating_characterization, by decide, by decide, by decide, by decide,
   by decide, by decide, by decide, by decide⟩

/-- C6 counterexample: the claim that the greedy run yields Character
exactly for the six names, u plus four hex digits, or o plus one to
three octal digits is false for non-ASCII code points: the code stores
`(char)lexer->lookahead`, the low byte of each code point (scanner.c
line 305).  With U+0131 (low byte 0x31, the digit 1) in the run, the
input backslash-u-1-U+0131-1-1 classifies as a Character although U+0131
is not a hex digit. -/
theorem claim_C6_counterexample :
    (scan_character_type ['\\', 'u', '1', Char.ofNat 305, '1', '1']).1 =
      CHARACTER_EXTERNAL ∧
    c_isxdigit (Char.ofNat 305) = false := by decide

/-- C6 (amended): the character sub-scanner equals the claimed
specification with classification applied to the low bytes of the
consumed code points (`character_scan_spec`): end of input after the
backslash is erroneous, the next code point is consumed unconditionally
and succeeds alone at a token boundary, and otherwise the greedy run
(capped at 31 code points) is consumed and classified byte-wise into the
six names, u plus four hex digits, or o plus one to three octal digits.
The sub-scanner always returns some token, and the dispatcher forwards
its result whenever a character kind is requested.  The concrete spec
examples hold. -/
theorem claim_C6_amended :
    (∀ rest : List Char, scan_character_type ('\\' :: rest) = character_scan_spec rest) ∧
    (∀ input : List Char, (scan_character_type input).1 = CHARACTER_EXTERNAL ∨
      (scan_character_type input).1 = ERRONEOUS_CHARACTER) ∧
    (∀ (valid : TokenType → Bool) (rest : List Char),
      (valid CHARACTER_EXTERNAL || valid ERRONEOUS_CHARACTER) = true →
      tree_sitter_treejure_external_scanner_scan () valid ('\\' :: rest) =
        (some (scan_character_type ('\\' :: rest)).1,
         (scan_character_type ('\\' :: rest)).2)) ∧
    tree_sitter_treejure_external_scanner_scan () allValid ("\\a".toList) =
      (some CHARACTER_EXTERNAL, []) ∧
    tree_sitter_treejure_external_scanner_scan () allValid ("\\(".toList) =
      (some CHARACTER_EXTERNAL, []) ∧
    tree_sitter_treejure_external_scanner_scan () allValid ("\\,".toList) =
      (some CHARACTER_EXTERNAL, []) ∧
    tree_sitter_treejure_external_scanner_scan () allValid ("\\newline".toList) =
      (some CHARACTER_EXTERNAL, []) ∧
    tree_sitter_treejure_external_scanner_scan () allValid ("\\u00e9".toList) =
      (some CHARACTER_EXTERNAL, []) ∧
    tree_sitter_treejure_external_scanner_scan () allValid ("\\o101".toList) =
      (some CHARACTER_EXTERNAL, []) ∧
    tree_sitter_treejure_external_scanner_scan () allValid ("\\abc".toList) =
      (some ERRONEOUS_CHARACTER, []) :=
  ⟨scan_character_type_spec_eq, scan_character_type_kind, scan_backslash_dispatch,
   by decide, by decide, by decide, by decide, by decide, by decide, by decide⟩

/-- C6 witness: the dispatcher conjunct applied at a concrete input with
the full candidate set. -/
theorem claim_C6_amended_witness :
    tree_sitter_treejure_external_scanner_scan () allValid ('\\' :: ['z']) =
      (some (scan_character_type ('\\' :: ['z'])).1,
       (scan_character_type ('\\' :: ['z'])).2) :=
  claim_C6_amended.2.2.1 allValid ['z'] rfl

/-- C7: in the string sub-scanner a backslash unconditionally consumes
exactly the next code point, so an escaped quote does not end the string;
the first unescaped quote ends the token as a successful String; reaching
the end of input with the string still open yields ErroneousString with
the whole partial span consumed; the dispatcher forwards the sub-scanner
result whenever a string kind is requested; and the two concrete spec
examples hold. -/
theorem claim_C7 :
    (∀ (c : Char) (rest : List Char), c.toNat ≠ 0 →
      scanStringLoop ('\\' :: c :: rest) false = scanStringLoop rest false) ∧
    (∀ rest : List Char, scanStringLoop ('"' :: rest) false = (STRING_EXTERNAL, rest)) ∧
    (∀ (input : List Char) (esc : Bool), (∀ ch ∈ input, ch.toNat ≠ 0) →
      (scanStringLoop input esc).1 = ERRONEOUS_STRING →
      (scanStringLoop input esc).2 = []) ∧
    (∀ (valid : TokenType → Bool) (rest : List Char),
      (valid STRING_EXTERNAL || valid ERRONEOUS_STRING) = true →
      tree_sitter_treejure_external_scanner_scan () valid ('"' :: rest) =
        (some (scanStringLoop rest false).1, (scanStringLoop rest false).2)) ∧
    tree_sitter_treejure_external_scanner_scan () allValid ("\"ab\\\"c\"".toList) =
      (some STRING_EXTERNAL, []) ∧
    tree_sitter_treejure_external_scanner_scan () allValid ("\"unterminated".toList) =
      (some ERRONEOUS_STRING, []) :=
  ⟨scanStringLoop_escape, scanStringLoop_close,
   fun input esc hn he => scanStringLoop_erroneous_consumes_all input esc hn he,
   scan_quote_dispatch, by decide, by decide⟩

/-- C7 witness: the escape conjunct applied to an escaped quote, and the
erroneous-string conjunct applied to an unterminated body. -/
theorem claim_C7_witness :
    scanStringLoop ('\\' :: '"' :: ['x']) false = scanStringLoop ['x'] false ∧
    (scanStringLoop ['a', 'b'] false).2 = [] :=
  ⟨claim_C7.1 '"' ['x'] (by decide),
   claim_C7.2.2.1 ['a', 'b'] false (by decide) (by decide)⟩

/-- C8 counterexample: the claim that metadata binds exactly one
mandatory target form is false — the target field of `with_metadata` is
optional (`part_000` line 59), so a metadata marker with its value at
the end of the stream parses successfully as a metadata node with no
target at all. -/
theorem claim_C8_counterexample :
    parseSource 32 [ReaderTok.metaTok, ReaderTok.kwTok "tag"] =
      some [Form.withMetadata (Form.keyword "tag") [] none] := rfl

/-- C8 (amended): a discard and every reader-macro production absorb
zero or more leading discards and then bind exactly one mandatory
visible target form — they succeed only when a target form parses —
while metadata's target is optional: when no visible form follows the
absorbed discards, the metadata node is still produced, with no target.
Concretely, `#_ #_ 1 2 3` parses as two top-level forms — an outer
discard holding the nested discard of 1 and the target 2, and the live
form 3 — so the only live top-level form is 3; a quote and metadata
each absorb a leading discard before their target, and deref absorbs a
nested discard chain. -/
theorem claim_C8_amended :
    (∀ (fuel : Nat) (toks : List ReaderTok) (mk : List Form → Form → Form)
       (f : Form) (rest : List ReaderTok),
      parseMacroTail (fuel + 1) toks mk = some (f, rest) →
      ∃ t, parseVisibleForm fuel (parseDiscards fuel toks).2 = some (t, rest) ∧
        f = mk (parseDiscards fuel toks).1 t) ∧
    (∀ (fuel : Nat) (rest0 : List ReaderTok) (f : Form) (rest : List ReaderTok),
      parseDiscard (fuel + 1) (ReaderTok.discardTok :: rest0) = some (f, rest) →
      ∃ t, parseVisibleForm fuel (parseDiscards fuel rest0).2 = some (t, rest) ∧
        f = Form.discard (parseDiscards fuel rest0).1 t) ∧
    (∀ (fuel : Nat) (v : Form) (toks : List ReaderTok),
      parseVisibleForm fuel (parseDiscards fuel toks).2 = none →
      parseMetaTail (fuel + 1) v toks =
        (Form.withMetadata v (parseDiscards fuel toks).1 none,
         (parseDiscards fuel toks).2)) ∧
    parseSource 32 [ReaderTok.discardTok, ReaderTok.discardTok, ReaderTok.numTok 1,
        ReaderTok.numTok 2, ReaderTok.numTok 3] =
      some [Form.discard [Form.discard [] (Form.number 1)] (Form.number 2),
        Form.number 3] ∧
    liveForms [Form.discard [Form.discard [] (Form.number 1)] (Form.number 2),
        Form.number 3] = [Form.number 3] ∧
    parseSource 32 [ReaderTok.quoteTok, ReaderTok.discardTok, ReaderTok.symTok "x",
        ReaderTok.symTok "y"] =
      some [Form.quote [Form.discard [] (Form.symbol "x")] (Form.symbol "y")] ∧
    parseSource 32 [ReaderTok.metaTok, ReaderTok.kwTok "tag", ReaderTok.discardTok,
        ReaderTok.symTok "x", ReaderTok.symTok "y"] =
      some [Form.withMetadata (Form.keyword "tag") [Form.discard [] (Form.symbol "x")]
        (some (Form.symbol "y"))] ∧
    parseSource 48 [ReaderTok.derefTok, ReaderTok.discardTok, ReaderTok.discardTok,
        ReaderTok.numTok 7, ReaderTok.numTok 8, ReaderTok.numTok 9] =
      some [Form.deref [Form.discard [Form.discard [] (Form.number 7)] (Form.number 8)]
        (Form.number 9)] :=
  ⟨parseMacroTail_mandatory_target, parseDiscard_mandatory_target,
   parseMetaTail_no_target, rfl, rfl, rfl, rfl, rfl⟩

/-- C8 witness: the mandatory-target conjunct applied to a quote tail on
a single number token, and the optional-metadata conjunct applied at the
end of the stream. -/
theorem claim_C8_amended_witness :
    (∃ t, parseVisibleForm 8 (parseDiscards 8 [ReaderTok.numTok 5]).2 =
        some (t, ([] : List ReaderTok)) ∧
      Form.quote [] (Form.number 5) =
        Form.quote (parseDiscards 8 [ReaderTok.numTok 5]).1 t) ∧
    parseMetaTail 9 (Form.keyword "tag") [] =
      (Form.withMetadata (Form.keyword "tag") [] none, ([] : List ReaderTok)) :=
  ⟨claim_C8_amended.1 8 [ReaderTok.numTok 5] Form.quote
     (Form.quote [] (Form.number 5)) [] rfl,
   claim_C8_amended.2.2.1 8 (Form.keyword "tag") [] rfl⟩

/-- C9: the scanner is stateless and deterministic — `serialize` writes
zero bytes, so no state crosses calls; a scan resumed from any two
serialized buffers gives identical results (the scan is a pure function
of the candidate set and the input remaining at the cursor); and the
returned cursor is always a suffix of the input, so a call only ever
moves the cursor forward over the scanned span. -/
theorem claim_C9 :
    (∀ payload : Unit, tree_sitter_treejure_external_scanner_serialize payload = []) ∧
    (∀ (s₁ s₂ : List Char) (valid : TokenType → Bool) (input : List Char),
      tree_sitter_treejure_external_scanner_scan
          (tree_sitter_treejure_external_scanner_deserialize
            tree_sitter_treejure_external_scanner_create s₁) valid input =
        tree_sitter_treejure_external_scanner_scan
          (tree_sitter_treejure_external_scanner_deserialize
            tree_sitter_treejure_external_scanner_create s₂) valid input) ∧
    (∀ (valid : TokenType → Bool) (input : List Char),
      List.IsSuffix (tree_sitter_treejure_external_scanner_scan () valid input).2 input) :=
  ⟨fun _ => rfl, fun _ _ _ _ => rfl, scanner_scan_suffix⟩

/-- C10: at a tilde followed by an at-sign, when the splicing marker is
not in the candidate set but the unquote marker is, the scan returns an
UnquoteMarker spanning only the tilde and leaves the at-sign unconsumed
(scanner.c lines 383-386). -/
theorem claim_C10 (valid : TokenType → Bool) (rest : List Char)
    (hS : valid UNQUOTE_SPLICING_MARKER = false) (hU : valid UNQUOTE_MARKER = true) :
    tree_sitter_treejure_external_scanner_scan () valid ('~' :: '@' :: rest) =
      (some UNQUOTE_MARKER, '@' :: rest) := by
  have hd := dropWhile_ws_cons '~' ('@' :: rest) (by decide)
  simp [tree_sitter_treejure_external_scanner_scan, hd, lookahead_cons, hS, hU]

/-- C10 witness: the claim applied with only the unquote marker
requested. -/
theorem claim_C10_witness :
    tree_sitter_treejure_external_scanner_scan ()
        (fun t => match t with | UNQUOTE_MARKER => true | _ => false)
        ('~' :: '@' :: ['r']) =
      (some UNQUOTE_MARKER, '@' :: ['r']) :=
  claim_C10 (fun t => match t with | UNQUOTE_MARKER => true | _ => false) ['r'] rfl rfl
